import Mathlib

/-!
Shallow embedding of the simple-quagga barcode scanner library.

The embedding covers two components of the repository:

* the fluent configuration builder (`BarcodeScannerBuilder`, file
  `barcode-scanner-builder.ts`): JS arrays are shared by reference, so the
  symbology array is modelled through a small heap (`World`) of array
  objects addressed by `Nat` references, while scalar option fields are
  plain record fields;
* the scanner lifecycle (`BarcodeScanner`, file `barcode-scanner.ts`):
  `start`, `stop`, `scanCode` and the per-frame callback
  `onQuaggaProcessed` are modelled as explicit state-passing functions on
  `ScannerState`.  Interactions with external collaborators (the Quagga
  engine, the DOM and the pending deferred promise) are recorded as an
  emitted list of `Effect` values, and outcomes of external operations
  that the code awaits are supplied through a `StartEnv` record.  The
  suspension of `scanCode` on its deferred promise is split into
  `scanCodeBegin` (the guards, the resume call and the creation of the
  deferred handle) and `scanCodeSettle` (the continuation that runs when
  the deferred settles, including the `finally` block).
-/

/-- Barcode symbology identifiers, from the `ReaderType` enum. -/
inductive ReaderType where
  | code128
  | ean
  | ean8
  | code39
  | code39vin
  | codabar
  | upc
  | upcE
  | i2of5
  | code2of5
  | code93
  | code32
deriving DecidableEq, Repr

/-- Overlay drawing style ({color, lineWidth}), from `QuaggaJSStyle`. -/
structure QuaggaJSStyle where
  color : String
  lineWidth : Int
deriving DecidableEq, Repr

/-- Heap of mutable JS array objects holding reader-type lists, addressed by
reference.  `next` is the next fresh reference. -/
structure World where
  next : Nat
  store : Nat → List ReaderType

/-- The empty heap. -/
def World.empty : World := ⟨0, fun _ => []⟩

/-- Allocate a fresh array object with the given contents. -/
def World.alloc (w : World) (xs : List ReaderType) : World × Nat :=
  (⟨w.next + 1, fun i => if i = w.next then xs else w.store i⟩, w.next)

/-- Read the contents of the array object at a reference. -/
def World.get (w : World) (ref : Nat) : List ReaderType :=
  w.store ref

/-- JS `Array.prototype.push`: append one element to the array object at a
reference, in place. -/
def World.push (w : World) (ref : Nat) (r : ReaderType) : World :=
  ⟨w.next, fun i => if i = ref then w.store ref ++ [r] else w.store i⟩

/-- The builder object (class `BarcodeScannerBuilder`).  `readersRef` is the
reference to the `_readerTypes` array object; all other option fields are
scalar values stored directly on the object. -/
structure BarcodeScannerBuilder where
  domTarget : String
  readersRef : Nat
  autoCss : Bool
  resultImages : Bool
  resultImagesType : Option String
  resultImagesQuality : Option ℚ
  codeValidator : Option (String → Bool)
  drawLocatedStyle : Option QuaggaJSStyle
  drawDetectedStyle : Option QuaggaJSStyle
  drawScanlineStyle : Option QuaggaJSStyle

/-- The builder constructor: allocates the empty `_readerTypes` array and
sets the default option values. -/
def newBarcodeScannerBuilder (w : World) (domTarget : String) :
    World × BarcodeScannerBuilder :=
  let wr := w.alloc []
  (wr.1, ⟨domTarget, wr.2, false, false, none, none, none, none, none, none⟩)

/-- Method `addReader`: pushes onto the shared `_readerTypes` array object and
returns the builder itself for chaining. -/
def BarcodeScannerBuilder.addReader (w : World) (b : BarcodeScannerBuilder)
    (readerType : ReaderType) : World × BarcodeScannerBuilder :=
  (w.push b.readersRef readerType, b)

/-- Method `withAutoCss`: overwrites the `_autoCss` flag. -/
def BarcodeScannerBuilder.withAutoCss (b : BarcodeScannerBuilder)
    (enabled : Bool) : BarcodeScannerBuilder :=
  { b with autoCss := enabled }

/-- Method `withResultImages`: overwrites the `_resultImages` flag together
with the image type and quality fields. -/
def BarcodeScannerBuilder.withResultImages (b : BarcodeScannerBuilder)
    (enabled : Bool) (imagesType : Option String) (imagesQuality : Option ℚ) :
    BarcodeScannerBuilder :=
  { b with resultImages := enabled, resultImagesType := imagesType,
           resultImagesQuality := imagesQuality }

/-- Method `withCodeValidator`: overwrites the `_codeValidator` callback. -/
def BarcodeScannerBuilder.withCodeValidator (b : BarcodeScannerBuilder)
    (callback : String → Bool) : BarcodeScannerBuilder :=
  { b with codeValidator := some callback }

/-- Method `withDrawLocated`: sets the located-boxes draw style, but only
when `enabled` is true; a disabled call leaves the builder unchanged. -/
def BarcodeScannerBuilder.withDrawLocated (b : BarcodeScannerBuilder)
    (enabled : Bool) (color : String) (width : Int) : BarcodeScannerBuilder :=
  if enabled then { b with drawLocatedStyle := some ⟨color, width⟩ } else b

/-- Method `withDrawDetected`: sets the detected-box draw style, but only
when `enabled` is true; a disabled call leaves the builder unchanged. -/
def BarcodeScannerBuilder.withDrawDetected (b : BarcodeScannerBuilder)
    (enabled : Bool) (color : String) (width : Int) : BarcodeScannerBuilder :=
  if enabled then { b with drawDetectedStyle := some ⟨color, width⟩ } else b

/-- Method `withDrawScanline`: sets the scan-line draw style, but only when
`enabled` is true; a disabled call leaves the builder unchanged. -/
def BarcodeScannerBuilder.withDrawScanline (b : BarcodeScannerBuilder)
    (enabled : Bool) (color : String) (width : Int) : BarcodeScannerBuilder :=
  if enabled then { b with drawScanlineStyle := some ⟨color, width⟩ } else b

/-- The configuration the `BarcodeScanner` constructor copies out of the
builder.  Scalar fields are copied by value; `readersRef` is the reference to
the very same `_readerTypes` array object the builder mutates (the
constructor runs `Object.assign(this.quaggaConfig.decoder, { readers:
barcodeReaderBuilder.readerTypes })`, which stores the array reference). -/
structure ScannerConfig where
  autoCss : Bool
  resultImages : Bool
  resultImagesType : Option String
  resultImagesQuality : Option ℚ
  codeValidator : Option (String → Bool)
  drawLocatedStyle : Option QuaggaJSStyle
  drawDetectedStyle : Option QuaggaJSStyle
  drawScanlineStyle : Option QuaggaJSStyle
  readersRef : Nat

/-- Method `build`: pushes the default symbology onto the shared array when
none was registered, then constructs the scanner configuration from the
builder (the `BarcodeScanner` constructor body). -/
def BarcodeScannerBuilder.build (w : World) (b : BarcodeScannerBuilder) :
    World × ScannerConfig :=
  let w1 := if (w.get b.readersRef).length = 0
    then w.push b.readersRef ReaderType.code128 else w
  (w1, ⟨b.autoCss, b.resultImages, b.resultImagesType, b.resultImagesQuality,
        b.codeValidator, b.drawLocatedStyle, b.drawDetectedStyle,
        b.drawScanlineStyle, b.readersRef⟩)

/-- The symbology list the scanner configuration currently holds: the
contents of the array object behind `quaggaConfig.decoder.readers`. -/
def ScannerConfig.configReaders (w : World) (cfg : ScannerConfig) :
    List ReaderType :=
  w.get cfg.readersRef

/-- Mutable instance state of a `BarcodeScanner`: the `isStarted` flag, the
`isAutoCssApplied` flag, and the optional pending deferred handle
`scanDeferred` (identified by a `Nat` id). -/
structure ScannerState where
  isStarted : Bool
  isAutoCssApplied : Bool
  scanDeferred : Option Nat
deriving DecidableEq, Repr

/-- The `codeResult` component of a Quagga frame result: the decoded code
(`none` models JS null/undefined, `some ""` an empty string, both falsy) and
the `startInfo.error` decode error metric. -/
structure CodeResult where
  code : Option String
  startInfoError : ℚ
deriving DecidableEq, Repr

/-- A Quagga frame result as read by the callback: an optional accepted
decode. -/
structure QuaggaResult where
  codeResult : Option CodeResult
deriving DecidableEq, Repr

/-- Observable interactions of the scanner with its collaborators: the DOM,
the Quagga engine and the pending deferred promise. -/
inductive Effect where
  | appendStyleElement
  | insertCssRules
  | quaggaInit
  | onProcessedRegistered
  | offProcessed
  | quaggaStart
  | quaggaPause
  | quaggaStop
  | clearOverlay
  | scheduleOverlayClear
  | drawLocatedCall
  | drawDetectedCall
  | drawScanlineCall
  | resolveDeferred (id : Nat) (r : QuaggaResult)
  | rejectDeferred (id : Nat) (msg : String)
deriving DecidableEq, Repr

/-- Outcomes of the external operations `start` performs: whether the
configured target is defined, whether the selector lookup succeeds, whether
the created style element carries a sheet, and whether `Quagga.init`
resolves (`none`) or rejects with an error. -/
structure StartEnv where
  targetDefined : Bool
  selectorOk : Bool
  styleSheetOk : Bool
  quaggaInitError : Option String
deriving DecidableEq, Repr

/-- An environment in which every external step of `start` succeeds. -/
def StartEnv.good (env : StartEnv) : Bool :=
  env.targetDefined && env.selectorOk && env.styleSheetOk &&
    env.quaggaInitError.isNone

/-- The fixed decode-error acceptance threshold (`0.12` in the source). -/
def errorThreshold : ℚ := 12 / 100

/-- Either the configured validator accepts the code, or no validator is
configured (the negation of `this.codeValidator &&
!this.codeValidator(code)`). -/
def validatorAccepts (cfg : ScannerConfig) (code : String) : Bool :=
  match cfg.codeValidator with
  | some v => v code
  | none => true

/-- Method `start`: returns the state after the call, the emitted effects,
and `some` error message when the call rejects.  On any failure the
`isStarted` flag is rolled back; the `isAutoCssApplied` flag is kept once
set (the catch block only resets `isStarted`). -/
def BarcodeScanner.start (cfg : ScannerConfig) (s : ScannerState)
    (env : StartEnv) : ScannerState × List Effect × Option String :=
  if s.isStarted then (s, [], none)
  else
    let s1 : ScannerState := { s with isStarted := true }
    let cssRes : ScannerState × List Effect × Option String :=
      if cfg.autoCss && !s1.isAutoCssApplied then
        if !env.targetDefined then
          (s1, [], some "Cannot apply auto CSS to undefined target")
        else if !env.selectorOk then
          (s1, [], some "Invalid selector")
        else if !env.styleSheetOk then
          (s1, [Effect.appendStyleElement],
           some "Cannot create dynamic CSS stylesheet")
        else
          ({ s1 with isAutoCssApplied := true },
           [Effect.appendStyleElement, Effect.insertCssRules], none)
      else (s1, [], none)
    match cssRes with
    | (s2, eff, some e) => ({ s2 with isStarted := false }, eff, some e)
    | (s2, eff, none) =>
      match env.quaggaInitError with
      | some e => ({ s2 with isStarted := false }, eff, some e)
      | none =>
        (s2, eff ++ [Effect.quaggaInit, Effect.onProcessedRegistered], none)

/-- Method `stop`: a no-op when not started; otherwise unregisters the
callback, rejects a pending deferred (without clearing the handle field,
which the awaiting `scanCode` continuation clears), stops the engine, and
resets `isStarted`. -/
def BarcodeScanner.stop (s : ScannerState) : ScannerState × List Effect :=
  if !s.isStarted then (s, [])
  else
    let rejectEff : List Effect :=
      match s.scanDeferred with
      | some d => [Effect.rejectDeferred d "Scanner received stop command"]
      | none => []
    ({ s with isStarted := false },
     [Effect.offProcessed] ++ rejectEff ++ [Effect.quaggaStop])

/-- The synchronous prefix of method `scanCode`: the not-started and
already-scanning guards, the `resume` call, and the installation of the
fresh deferred handle.  Returns `some` error message when a guard throws. -/
def BarcodeScanner.scanCodeBegin (s : ScannerState) (newId : Nat) :
    ScannerState × List Effect × Option String :=
  if !s.isStarted then (s, [], some "Scanner not started")
  else
    match s.scanDeferred with
    | some _ => (s, [], some "Already scanning for code")
    | none => ({ s with scanDeferred := some newId },
               [Effect.quaggaStart], none)

/-- The continuation of method `scanCode` once its deferred settles: the
`finally` block clears `scanDeferred` and schedules the delayed overlay
clear; a rejection propagates, and a resolution is checked for a truthy
`codeResult.code` before the code string is returned (otherwise the
defensive internal error is thrown). -/
def BarcodeScanner.scanCodeSettle (s : ScannerState)
    (outcome : Except String QuaggaResult) :
    ScannerState × List Effect × Except String String :=
  let s1 : ScannerState := { s with scanDeferred := none }
  let eff : List Effect := [Effect.scheduleOverlayClear]
  match outcome with
  | Except.error e => (s1, eff, Except.error e)
  | Except.ok r =>
    match r.codeResult with
    | none => (s1, eff, Except.error "Internal scanner error")
    | some cr =>
      match cr.code with
      | none => (s1, eff, Except.error "Internal scanner error")
      | some c =>
        if c = "" then (s1, eff, Except.error "Internal scanner error")
        else (s1, eff, Except.ok c)

/-- The effects the callback emits before the quality gate: the overlay
clear, and the located-boxes drawing call when that style is configured. -/
def locatedEffects (cfg : ScannerConfig) : List Effect :=
  [Effect.clearOverlay] ++
    (if cfg.drawLocatedStyle.isSome then [Effect.drawLocatedCall] else [])

/-- The full quality gate of the callback: the frame carries a truthy decoded
code, its error metric is strictly below `errorThreshold`, and the optional
validator accepts the code. -/
def frameAccepted (cfg : ScannerConfig) (r : QuaggaResult) : Bool :=
  match r.codeResult with
  | none => false
  | some cr =>
    match cr.code with
    | none => false
    | some c =>
      decide (c ≠ "") && decide (cr.startInfoError < errorThreshold) &&
        validatorAccepts cfg c

/-- The per-frame callback `onQuaggaProcessed`: a no-op without a pending
request or frame result; otherwise clears the overlay, draws located boxes
when configured, and when the frame carries a truthy decoded code whose
error metric is strictly below `errorThreshold` and the optional validator
accepts it, draws the configured overlays, resolves the pending deferred
with the frame result and pauses detection.  The method never writes the
`scanDeferred` field itself. -/
def BarcodeScanner.onQuaggaProcessed (cfg : ScannerConfig) (s : ScannerState)
    (res : Option QuaggaResult) : ScannerState × List Effect :=
  match s.scanDeferred, res with
  | none, _ => (s, [])
  | some _, none => (s, [])
  | some d, some r =>
    match r.codeResult with
    | none => (s, locatedEffects cfg)
    | some cr =>
      match cr.code with
      | none => (s, locatedEffects cfg)
      | some c =>
        if c = "" then (s, locatedEffects cfg)
        else if cr.startInfoError < errorThreshold then
          if validatorAccepts cfg c = false then (s, locatedEffects cfg)
          else
            (s, locatedEffects cfg ++
              (if cfg.drawDetectedStyle.isSome
                then [Effect.drawDetectedCall] else []) ++
              (if cfg.drawScanlineStyle.isSome
                then [Effect.drawScanlineCall] else []) ++
              [Effect.resolveDeferred d r, Effect.quaggaPause])
        else (s, locatedEffects cfg)

/-- Fold a sequence of `addReader` calls over a builder. -/
def addReaders (w : World) (b : BarcodeScannerBuilder)
    (rs : List ReaderType) : World × BarcodeScannerBuilder :=
  rs.foldl (fun p r => BarcodeScannerBuilder.addReader p.1 p.2 r) (w, b)

/-- Recognizer for the resolve effect. -/
def isResolveEffect : Effect → Bool
  | Effect.resolveDeferred _ _ => true
  | _ => false

/-- Recognizer for the stylesheet-rule insertion effect. -/
def isInsertCssEffect : Effect → Bool
  | Effect.insertCssRules => true
  | _ => false

/-! ## Helper lemmas -/

/-- The pre-gate effects never contain a resolve effect. -/
theorem resolve_not_mem_locatedEffects (cfg : ScannerConfig) (i : Nat)
    (r2 : QuaggaResult) : Effect.resolveDeferred i r2 ∉ locatedEffects cfg := by
  by_cases h : cfg.drawLocatedStyle.isSome <;> simp [locatedEffects, h]

/-- The pre-gate effects never contain a pause effect. -/
theorem pause_not_mem_locatedEffects (cfg : ScannerConfig) :
    Effect.quaggaPause ∉ locatedEffects cfg := by
  by_cases h : cfg.drawLocatedStyle.isSome <;> simp [locatedEffects, h]

/-- The pre-gate effects contain no resolve effect, counted. -/
theorem countP_resolve_locatedEffects (cfg : ScannerConfig) :
    (locatedEffects cfg).countP isResolveEffect = 0 := by
  by_cases h : cfg.drawLocatedStyle.isSome <;>
    simp [locatedEffects, h, isResolveEffect]

/-- When the quality gate fails, the callback leaves the state unchanged and
emits only the pre-gate effects. -/
theorem onProcessed_not_accepted (cfg : ScannerConfig) (s : ScannerState)
    (d : Nat) (r : QuaggaResult) (hd : s.scanDeferred = some d)
    (h : frameAccepted cfg r = false) :
    BarcodeScanner.onQuaggaProcessed cfg s (some r) = (s, locatedEffects cfg) := by
  cases hcr : r.codeResult with
  | none => simp [BarcodeScanner.onQuaggaProcessed, hd, hcr]
  | some cr =>
    cases hc : cr.code with
    | none => simp [BarcodeScanner.onQuaggaProcessed, hd, hcr, hc]
    | some c =>
      simp only [frameAccepted, hcr, hc, Bool.and_eq_false_iff,
        decide_eq_false_iff_not, not_not] at h
      by_cases hce : c = ""
      · simp [BarcodeScanner.onQuaggaProcessed, hd, hcr, hc, hce]
      · by_cases hlt : cr.startInfoError < errorThreshold
        · have hv : validatorAccepts cfg c = false := by
            rcases h with h' | h'
            · rcases h' with h'' | h''
              · exact absurd h'' hce
              · exact absurd hlt h''
            · exact h'
          simp [BarcodeScanner.onQuaggaProcessed, hd, hcr, hc, hce, hlt, hv]
        · simp [BarcodeScanner.onQuaggaProcessed, hd, hcr, hc, hce, hlt]

/-- When the quality gate passes, the callback leaves the state unchanged
and emits the pre-gate effects, optional overlay drawing calls, the resolve
of the pending deferred with the frame result, and the pause. -/
theorem onProcessed_accepted (cfg : ScannerConfig) (s : ScannerState)
    (d : Nat) (r : QuaggaResult) (hd : s.scanDeferred = some d)
    (h : frameAccepted cfg r = true) :
    ∃ cr c, r.codeResult = some cr ∧ cr.code = some c ∧ c ≠ "" ∧
      cr.startInfoError < errorThreshold ∧ validatorAccepts cfg c = true ∧
      BarcodeScanner.onQuaggaProcessed cfg s (some r) =
        (s, locatedEffects cfg ++
          (if cfg.drawDetectedStyle.isSome
            then [Effect.drawDetectedCall] else []) ++
          (if cfg.drawScanlineStyle.isSome
            then [Effect.drawScanlineCall] else []) ++
          [Effect.resolveDeferred d r, Effect.quaggaPause]) := by
  cases hcr : r.codeResult with
  | none => simp [frameAccepted, hcr] at h
  | some cr =>
    cases hc : cr.code with
    | none => simp [frameAccepted, hcr, hc] at h
    | some c =>
      simp only [frameAccepted, hcr, hc, Bool.and_eq_true,
        decide_eq_true_eq] at h
      obtain ⟨⟨hce, hlt⟩, hv⟩ := h
      refine ⟨cr, c, rfl, hc, hce, hlt, hv, ?_⟩
      simp [BarcodeScanner.onQuaggaProcessed, hd, hcr, hc, hce, hlt, hv]

/-! ## Claim theorems -/

/-- Claim C1: `scanCode` fails immediately with the not-started error when
the scanner is not started, and with the already-scanning error when a scan
request is already pending; in the latter case the state (in particular the
pending deferred handle of the first request) is unchanged and no effect is
emitted, so the second request is never queued. -/
theorem scanCode_second_request_rejected (s : ScannerState) (newId : Nat) :
    (s.isStarted = false →
      BarcodeScanner.scanCodeBegin s newId =
        (s, [], some "Scanner not started")) ∧
    (∀ d : Nat, s.isStarted = true → s.scanDeferred = some d →
      BarcodeScanner.scanCodeBegin s newId =
        (s, [], some "Already scanning for code")) := by
  constructor
  · intro h
    simp [BarcodeScanner.scanCodeBegin, h]
  · intro d hs hd
    simp [BarcodeScanner.scanCodeBegin, hs, hd]

/-- Witness for C1 at concrete states. -/
theorem scanCode_second_request_rejected_witness :
    BarcodeScanner.scanCodeBegin ⟨false, false, none⟩ 0 =
      (⟨false, false, none⟩, [], some "Scanner not started") ∧
    BarcodeScanner.scanCodeBegin ⟨true, false, some 5⟩ 7 =
      (⟨true, false, some 5⟩, [], some "Already scanning for code") :=
  ⟨(scanCode_second_request_rejected ⟨false, false, none⟩ 0).1 rfl,
   (scanCode_second_request_rejected ⟨true, false, some 5⟩ 7).2 5 rfl rfl⟩

/-- Claim C2: while a scan request is pending, a frame whose decode error
metric is at or above `errorThreshold` never resolves the pending scan; a
frame with a truthy decoded code strictly below the threshold that the
configured validator (if any) accepts resolves exactly one pending scan and
pauses frame-triggered detection. -/
theorem frame_gate_resolution (cfg : ScannerConfig) (s : ScannerState)
    (d : Nat) (r : QuaggaResult) (cr : CodeResult)
    (hd : s.scanDeferred = some d) (hcr : r.codeResult = some cr) :
    (errorThreshold ≤ cr.startInfoError →
      ∀ i r2, Effect.resolveDeferred i r2 ∉
        (BarcodeScanner.onQuaggaProcessed cfg s (some r)).2) ∧
    (∀ c : String, cr.code = some c → c ≠ "" →
      cr.startInfoError < errorThreshold → validatorAccepts cfg c = true →
      ((BarcodeScanner.onQuaggaProcessed cfg s (some r)).2.countP
          isResolveEffect = 1 ∧
        Effect.resolveDeferred d r ∈
          (BarcodeScanner.onQuaggaProcessed cfg s (some r)).2 ∧
        Effect.quaggaPause ∈
          (BarcodeScanner.onQuaggaProcessed cfg s (some r)).2)) := by
  constructor
  · intro hge i r2
    have hnlt : ¬ cr.startInfoError < errorThreshold := not_lt.mpr hge
    have hfa : frameAccepted cfg r = false := by
      cases hc : cr.code with
      | none => simp [frameAccepted, hcr, hc]
      | some c => simp [frameAccepted, hcr, hc, hnlt]
    rw [onProcessed_not_accepted cfg s d r hd hfa]
    exact resolve_not_mem_locatedEffects cfg i r2
  · intro c hc hce hlt hv
    have hfa : frameAccepted cfg r = true := by
      simp [frameAccepted, hcr, hc, hce, hlt, hv]
    obtain ⟨cr2, c2, hcr2, hc2, hce2, hlt2, hv2, heq⟩ :=
      onProcessed_accepted cfg s d r hd hfa
    rw [heq]
    refine ⟨?_, ?_, ?_⟩
    · by_cases h1 : cfg.drawDetectedStyle.isSome <;>
        by_cases h2 : cfg.drawScanlineStyle.isSome <;>
        simp [List.countP_append, countP_resolve_locatedEffects, h1, h2,
          isResolveEffect]
    · simp
    · simp

/-- Witness for C2 at concrete inputs: a frame at metric `20 / 100` never
resolves, a frame at metric `1 / 100` resolves exactly once and pauses. -/
theorem frame_gate_resolution_witness :
    (∀ i r2, Effect.resolveDeferred i r2 ∉
      (BarcodeScanner.onQuaggaProcessed
        ⟨false, false, none, none, none, none, none, none, 0⟩
        ⟨true, false, some 0⟩
        (some ⟨some ⟨some "abc", 20 / 100⟩⟩)).2) ∧
    ((BarcodeScanner.onQuaggaProcessed
        ⟨false, false, none, none, none, none, none, none, 0⟩
        ⟨true, false, some 0⟩
        (some ⟨some ⟨some "abc", 1 / 100⟩⟩)).2.countP isResolveEffect = 1 ∧
      Effect.resolveDeferred 0 ⟨some ⟨some "abc", 1 / 100⟩⟩ ∈
        (BarcodeScanner.onQuaggaProcessed
          ⟨false, false, none, none, none, none, none, none, 0⟩
          ⟨true, false, some 0⟩
          (some ⟨some ⟨some "abc", 1 / 100⟩⟩)).2 ∧
      Effect.quaggaPause ∈
        (BarcodeScanner.onQuaggaProcessed
          ⟨false, false, none, none, none, none, none, none, 0⟩
          ⟨true, false, some 0⟩
          (some ⟨some ⟨some "abc", 1 / 100⟩⟩)).2) :=
  ⟨(frame_gate_resolution _ _ 0 _ _ rfl rfl).1 (by norm_num [errorThreshold]),
   (frame_gate_resolution _ _ 0 _ _ rfl rfl).2 "abc" rfl (by decide)
     (by norm_num [errorThreshold]) rfl⟩

/-- Claim C6: a frame below the threshold whose code the configured
validator rejects is dropped silently: the state (including the pending
deferred handle) is unchanged, no resolve effect is emitted and no pause is
issued, so detection stays active. -/
theorem validator_reject_silent (cfg : ScannerConfig) (s : ScannerState)
    (d : Nat) (r : QuaggaResult) (cr : CodeResult) (c : String)
    (v : String → Bool)
    (hd : s.scanDeferred = some d) (hcr : r.codeResult = some cr)
    (hc : cr.code = some c) (hce : c ≠ "")
    (hlt : cr.startInfoError < errorThreshold)
    (hv : cfg.codeValidator = some v) (hrej : v c = false) :
    BarcodeScanner.onQuaggaProcessed cfg s (some r) =
      (s, locatedEffects cfg) ∧
    (∀ i r2, Effect.resolveDeferred i r2 ∉
      (BarcodeScanner.onQuaggaProcessed cfg s (some r)).2) ∧
    Effect.quaggaPause ∉ (BarcodeScanner.onQuaggaProcessed cfg s (some r)).2 := by
  have hfa : frameAccepted cfg r = false := by
    simp [frameAccepted, hcr, hc, validatorAccepts, hv, hrej]
  have hmain := onProcessed_not_accepted cfg s d r hd hfa
  refine ⟨hmain, ?_, ?_⟩
  · intro i r2
    rw [hmain]
    exact resolve_not_mem_locatedEffects cfg i r2
  · rw [hmain]
    exact pause_not_mem_locatedEffects cfg

/-- Witness for C6 at a concrete rejecting validator. -/
theorem validator_reject_silent_witness :
    BarcodeScanner.onQuaggaProcessed
      ⟨false, false, none, none, some (fun _ => false), none, none, none, 0⟩
      ⟨true, false, some 0⟩ (some ⟨some ⟨some "abc", 1 / 100⟩⟩) =
      (⟨true, false, some 0⟩,
        locatedEffects
          ⟨false, false, none, none, some (fun _ => false), none, none, none,
            0⟩) :=
  (validator_reject_silent _ _ 0 _ _ "abc" (fun _ => false) rfl rfl rfl
    (by decide) (by norm_num [errorThreshold]) rfl rfl).1

/-- Claim C10: whenever the callback resolves the pending deferred, the
resolved frame result carries a truthy non-empty decoded code, so the
defensive internal-error branch of `scanCode` is unreachable along the
callback-driven resolution path: settling on that result returns the code. -/
theorem resolve_carries_code (cfg : ScannerConfig) (s : ScannerState)
    (res : Option QuaggaResult) (i : Nat) (r : QuaggaResult)
    (h : Effect.resolveDeferred i r ∈
      (BarcodeScanner.onQuaggaProcessed cfg s res).2) :
    ∃ cr c, r.codeResult = some cr ∧ cr.code = some c ∧ c ≠ "" ∧
      ∀ s2 : ScannerState,
        BarcodeScanner.scanCodeSettle s2 (Except.ok r) =
          ({ s2 with scanDeferred := none }, [Effect.scheduleOverlayClear],
            Except.ok c) := by
  cases hsd : s.scanDeferred with
  | none =>
    rw [show BarcodeScanner.onQuaggaProcessed cfg s res = (s, []) from by
      cases res <;> simp [BarcodeScanner.onQuaggaProcessed, hsd]] at h
    simp at h
  | some d =>
    cases res with
    | none =>
      rw [show BarcodeScanner.onQuaggaProcessed cfg s none = (s, []) from by
        simp [BarcodeScanner.onQuaggaProcessed, hsd]] at h
      simp at h
    | some r0 =>
      by_cases hfa : frameAccepted cfg r0 = true
      · obtain ⟨cr, c, hcr, hc, hce, hlt, hv, heq⟩ :=
          onProcessed_accepted cfg s d r0 hsd hfa
        rw [heq] at h
        have hr : r = r0 := by
          rcases List.mem_append.mp h with h1 | h2
          · rcases List.mem_append.mp h1 with h3 | h4
            · rcases List.mem_append.mp h3 with h5 | h6
              · exact absurd h5 (resolve_not_mem_locatedEffects cfg i r)
              · by_cases hb : cfg.drawDetectedStyle.isSome <;>
                  simp [hb] at h6
            · by_cases hb : cfg.drawScanlineStyle.isSome <;>
                simp [hb] at h4
          · simp only [List.mem_cons, List.mem_singleton,
              Effect.resolveDeferred.injEq] at h2
            rcases h2 with ⟨_, hr0⟩ | h2
            · exact hr0
            · exact absurd h2 (by simp)
        subst hr
        exact ⟨cr, c, hcr, hc, hce, fun s2 => by
          simp [BarcodeScanner.scanCodeSettle, hcr, hc, hce]⟩
      · have hfa2 : frameAccepted cfg r0 = false := by
          simpa using hfa
        rw [onProcessed_not_accepted cfg s d r0 hsd hfa2] at h
        exact absurd h (resolve_not_mem_locatedEffects cfg i r)

/-- Witness for C10 at a concrete accepted frame. -/
theorem resolve_carries_code_witness :
    ∃ cr c,
      (⟨some ⟨some "abc", 1 / 100⟩⟩ : QuaggaResult).codeResult = some cr ∧
      cr.code = some c ∧ c ≠ "" ∧
      ∀ s2 : ScannerState,
        BarcodeScanner.scanCodeSettle s2
            (Except.ok ⟨some ⟨some "abc", 1 / 100⟩⟩) =
          ({ s2 with scanDeferred := none }, [Effect.scheduleOverlayClear],
            Except.ok c) :=
  resolve_carries_code ⟨false, false, none, none, none, none, none, none, 0⟩
    ⟨true, false, some 0⟩ (some ⟨some ⟨some "abc", 1 / 100⟩⟩) 0
    ⟨some ⟨some "abc", 1 / 100⟩⟩
    (by
      have hne : ("abc" : String) ≠ "" := by decide
      norm_num [BarcodeScanner.onQuaggaProcessed, validatorAccepts,
        errorThreshold, locatedEffects, hne])

/-- A `start` call on an already-started scanner is a pure no-op. -/
theorem start_of_started (cfg : ScannerConfig) (s : ScannerState)
    (env : StartEnv) (hs : s.isStarted = true) :
    BarcodeScanner.start cfg s env = (s, [], none) := by
  simp [BarcodeScanner.start, hs]

/-- A `start` call on a stopped scanner in a fully good environment
succeeds: no error, the started flag is set, and the pending handle is
untouched. -/
theorem start_good (cfg : ScannerConfig) (s : ScannerState) (env : StartEnv)
    (hs : s.isStarted = false) (hgood : env.good = true) :
    (BarcodeScanner.start cfg s env).2.2 = none ∧
    (BarcodeScanner.start cfg s env).1.isStarted = true ∧
    (BarcodeScanner.start cfg s env).1.scanDeferred = s.scanDeferred := by
  obtain ⟨td, so, ss, qe⟩ := env
  simp only [StartEnv.good, Bool.and_eq_true, Option.isNone_iff_eq_none] at hgood
  obtain ⟨⟨⟨htd, hso⟩, hss⟩, hqe⟩ := hgood
  subst htd hso hss hqe
  by_cases hac : (cfg.autoCss && !s.isAutoCssApplied) = true <;>
    simp [BarcodeScanner.start, hs, hac]

/-- A `start` call on a stopped scanner either succeeds with the started
flag set, or fails with the started flag rolled back. -/
theorem start_flag (cfg : ScannerConfig) (s : ScannerState) (env : StartEnv)
    (hs : s.isStarted = false) :
    ((BarcodeScanner.start cfg s env).1.isStarted = true ∧
      (BarcodeScanner.start cfg s env).2.2 = none) ∨
    ((BarcodeScanner.start cfg s env).1.isStarted = false ∧
      ∃ e, (BarcodeScanner.start cfg s env).2.2 = some e) := by
  obtain ⟨td, so, ss, qe⟩ := env
  cases td <;> cases so <;> cases ss <;> cases qe <;>
    cases hca : cfg.autoCss <;> cases haa : s.isAutoCssApplied <;>
    simp_all [BarcodeScanner.start]

/-- Claim C4: when `start` is invoked on a not-started scanner, success sets
the started flag, any failure is propagated with the started flag left
false (atomicity), and after any first attempt a retry in a good
environment succeeds with the scanner started. -/
theorem start_atomic_retry (cfg : ScannerConfig) (s : ScannerState)
    (env : StartEnv) (hs : s.isStarted = false) :
    ((BarcodeScanner.start cfg s env).2.2 = none →
      (BarcodeScanner.start cfg s env).1.isStarted = true) ∧
    (∀ e, (BarcodeScanner.start cfg s env).2.2 = some e →
      (BarcodeScanner.start cfg s env).1.isStarted = false) ∧
    (∀ env2, env2.good = true →
      (BarcodeScanner.start cfg (BarcodeScanner.start cfg s env).1
          env2).2.2 = none ∧
      (BarcodeScanner.start cfg (BarcodeScanner.start cfg s env).1
          env2).1.isStarted = true) := by
  have hflag := start_flag cfg s env hs
  refine ⟨?_, ?_, ?_⟩
  · intro hnone
    rcases hflag with ⟨h1, _⟩ | ⟨_, ⟨e, h2⟩⟩
    · exact h1
    · rw [hnone] at h2
      exact absurd h2 (by simp)
  · intro e he
    rcases hflag with ⟨_, h2⟩ | ⟨h1, _⟩
    · rw [he] at h2
      exact absurd h2 (by simp)
    · exact h1
  · intro env2 hgood2
    rcases hflag with ⟨h1, _⟩ | ⟨h1, _⟩
    · rw [start_of_started cfg _ env2 h1]
      exact ⟨rfl, h1⟩
    · have := start_good cfg _ env2 h1 hgood2
      exact ⟨this.1, this.2.1⟩

/-- Witness for C4: a failing engine initialization leaves the scanner not
started, and a retry in a good environment succeeds. -/
theorem start_atomic_retry_witness :
    (BarcodeScanner.start
        ⟨false, false, none, none, none, none, none, none, 0⟩
        ⟨false, false, none⟩ ⟨true, true, true, some "boom"⟩).1.isStarted =
      false ∧
    (BarcodeScanner.start
        ⟨false, false, none, none, none, none, none, none, 0⟩
        (BarcodeScanner.start
          ⟨false, false, none, none, none, none, none, none, 0⟩
          ⟨false, false, none⟩ ⟨true, true, true, some "boom"⟩).1
        ⟨true, true, true, none⟩).2.2 = none :=
  ⟨(start_atomic_retry _ ⟨false, false, none⟩
      ⟨true, true, true, some "boom"⟩ rfl).2.1 "boom" rfl,
   ((start_atomic_retry _ ⟨false, false, none⟩
      ⟨true, true, true, some "boom"⟩ rfl).2.2 ⟨true, true, true, none⟩
      rfl).1⟩

/-- Claim C5: a second consecutive `start` without an intervening `stop` is
a pure no-op (no side effects at all); `stop` preserves the
`isAutoCssApplied` flag; once that flag is set no later `start` inserts the
stylesheet rules again; a single `start` inserts them at most once; and any
`start` that does insert them leaves the flag set. -/
theorem css_inserted_once (cfg : ScannerConfig) (s : ScannerState)
    (env : StartEnv) :
    (s.isStarted = true → BarcodeScanner.start cfg s env = (s, [], none)) ∧
    ((BarcodeScanner.stop s).1.isAutoCssApplied = s.isAutoCssApplied) ∧
    (s.isAutoCssApplied = true →
      (BarcodeScanner.start cfg s env).2.1.countP isInsertCssEffect = 0) ∧
    ((BarcodeScanner.start cfg s env).2.1.countP isInsertCssEffect ≤ 1) ∧
    (Effect.insertCssRules ∈ (BarcodeScanner.start cfg s env).2.1 →
      (BarcodeScanner.start cfg s env).1.isAutoCssApplied = true) := by
  refine ⟨fun hs => start_of_started cfg s env hs, ?_, ?_, ?_, ?_⟩
  · by_cases hs : s.isStarted = true <;> simp [BarcodeScanner.stop, hs]
  all_goals
    by_cases hs : s.isStarted = true
  · simp [start_of_started cfg s env hs, isInsertCssEffect]
  · have hs' : s.isStarted = false := by simpa using hs
    obtain ⟨td, so, ss, qe⟩ := env
    cases td <;> cases so <;> cases ss <;> cases qe <;>
      cases hca : cfg.autoCss <;> cases haa : s.isAutoCssApplied <;>
      simp_all [BarcodeScanner.start, isInsertCssEffect, List.countP_cons,
        List.countP_nil, List.countP_append]
  · simp [start_of_started cfg s env hs, isInsertCssEffect]
  · have hs' : s.isStarted = false := by simpa using hs
    obtain ⟨td, so, ss, qe⟩ := env
    cases td <;> cases so <;> cases ss <;> cases qe <;>
      cases hca : cfg.autoCss <;> cases haa : s.isAutoCssApplied <;>
      simp_all [BarcodeScanner.start, isInsertCssEffect, List.countP_cons,
        List.countP_nil, List.countP_append]
  · simp [start_of_started cfg s env hs]
  · have hs' : s.isStarted = false := by simpa using hs
    obtain ⟨td, so, ss, qe⟩ := env
    cases td <;> cases so <;> cases ss <;> cases qe <;>
      cases hca : cfg.autoCss <;> cases haa : s.isAutoCssApplied <;>
      simp_all [BarcodeScanner.start]

/-- Witness for C5: a started scanner sees a no-op `start`, and a scanner
whose stylesheet flag is set never re-inserts the rules. -/
theorem css_inserted_once_witness :
    BarcodeScanner.start ⟨true, false, none, none, none, none, none, none, 0⟩
        ⟨true, false, none⟩ ⟨true, true, true, none⟩ =
      (⟨true, false, none⟩, [], none) ∧
    (BarcodeScanner.start ⟨true, false, none, none, none, none, none, none, 0⟩
        ⟨false, true, none⟩ ⟨true, true, true, none⟩).2.1.countP
      isInsertCssEffect = 0 :=
  ⟨(css_inserted_once ⟨true, false, none, none, none, none, none, none, 0⟩
      ⟨true, false, none⟩ ⟨true, true, true, none⟩).1 rfl,
   (css_inserted_once ⟨true, false, none, none, none, none, none, none, 0⟩
      ⟨false, true, none⟩ ⟨true, true, true, none⟩).2.2.1 rfl⟩

/-- Claim C3: `stop` while a scan is pending rejects the pending deferred
with the stop error; the interrupted `scanCode` settles with that error and
clears the pending handle; a subsequent `start` in a good environment and a
subsequent `scanCode` then succeed on the same instance. -/
theorem stop_interrupt_then_restart (cfg : ScannerConfig) (s : ScannerState)
    (d : Nat) (env : StartEnv) (newId : Nat)
    (hs : s.isStarted = true) (hd : s.scanDeferred = some d)
    (hgood : env.good = true) :
    Effect.rejectDeferred d "Scanner received stop command" ∈
      (BarcodeScanner.stop s).2 ∧
    (BarcodeScanner.scanCodeSettle (BarcodeScanner.stop s).1
        (Except.error "Scanner received stop command")).2.2 =
      Except.error "Scanner received stop command" ∧
    (BarcodeScanner.scanCodeSettle (BarcodeScanner.stop s).1
        (Except.error "Scanner received stop command")).1.scanDeferred =
      none ∧
    (BarcodeScanner.start cfg
        (BarcodeScanner.scanCodeSettle (BarcodeScanner.stop s).1
          (Except.error "Scanner received stop command")).1 env).2.2 =
      none ∧
    (BarcodeScanner.start cfg
        (BarcodeScanner.scanCodeSettle (BarcodeScanner.stop s).1
          (Except.error "Scanner received stop command")).1
        env).1.isStarted = true ∧
    (BarcodeScanner.scanCodeBegin
        (BarcodeScanner.start cfg
          (BarcodeScanner.scanCodeSettle (BarcodeScanner.stop s).1
            (Except.error "Scanner received stop command")).1 env).1
        newId).2.2 = none := by
  have hstop1 : (BarcodeScanner.stop s).1 = { s with isStarted := false } := by
    simp [BarcodeScanner.stop, hs]
  have hsettle : (BarcodeScanner.scanCodeSettle (BarcodeScanner.stop s).1
      (Except.error "Scanner received stop command")) =
      ({ s with isStarted := false, scanDeferred := none },
        [Effect.scheduleOverlayClear],
        Except.error "Scanner received stop command") := by
    rw [hstop1]
    simp [BarcodeScanner.scanCodeSettle]
  have hsgood := start_good cfg
    ({ s with isStarted := false, scanDeferred := none}) env rfl hgood
  refine ⟨?_, ?_, ?_, ?_, ?_, ?_⟩
  · simp [BarcodeScanner.stop, hs, hd]
  · rw [hsettle]
  · rw [hsettle]
  · rw [hsettle]
    exact hsgood.1
  · rw [hsettle]
    exact hsgood.2.1
  · rw [hsettle]
    have h1 := hsgood.2.1
    have h2 := hsgood.2.2
    simp only [] at h2
    simp [BarcodeScanner.scanCodeBegin, h1, h2]

/-- Witness for C3 at a concrete pending scan. -/
theorem stop_interrupt_then_restart_witness :
    Effect.rejectDeferred 3 "Scanner received stop command" ∈
      (BarcodeScanner.stop ⟨true, false, some 3⟩).2 ∧
    (BarcodeScanner.scanCodeBegin
        (BarcodeScanner.start
          ⟨false, false, none, none, none, none, none, none, 0⟩
          (BarcodeScanner.scanCodeSettle
            (BarcodeScanner.stop ⟨true, false, some 3⟩).1
            (Except.error "Scanner received stop command")).1
          ⟨true, true, true, none⟩).1 1).2.2 = none :=
  ⟨(stop_interrupt_then_restart
      ⟨false, false, none, none, none, none, none, none, 0⟩
      ⟨true, false, some 3⟩ 3 ⟨true, true, true, none⟩ 1 rfl rfl rfl).1,
   (stop_interrupt_then_restart
      ⟨false, false, none, none, none, none, none, none, 0⟩
      ⟨true, false, some 3⟩ 3 ⟨true, true, true, none⟩ 1 rfl rfl
      rfl).2.2.2.2.2⟩

/-- Pushing appends to the addressed array object. -/
theorem World.get_push (w : World) (ref : Nat) (r : ReaderType) :
    (w.push ref r).get ref = w.get ref ++ [r] := by
  simp [World.push, World.get]

/-- A sequence of `addReader` calls returns the builder object unchanged and
appends to its array in call order. -/
theorem addReaders_spec (rs : List ReaderType) :
    ∀ (w : World) (b : BarcodeScannerBuilder),
      (addReaders w b rs).2 = b ∧
      (addReaders w b rs).1.get b.readersRef = w.get b.readersRef ++ rs := by
  induction rs with
  | nil =>
    intro w b
    simp [addReaders]
  | cons r rs ih =>
    intro w b
    have h := ih (w.push b.readersRef r) b
    constructor
    · simpa [addReaders, BarcodeScannerBuilder.addReader,
        List.foldl_cons] using h.1
    · have h2 := h.2
      rw [World.get_push] at h2
      simpa [addReaders, BarcodeScannerBuilder.addReader, List.foldl_cons,
        List.append_assoc] using h2

/-- Claim C7: starting from a builder whose symbology array is empty, any
sequence of `addReader` calls yields exactly that sequence, in call order
and without deduplication; after `build` the configured list is the
sequence itself, or exactly one default symbology when the sequence was
empty; in both cases it is non-empty. -/
theorem addReader_order_default (w : World) (b : BarcodeScannerBuilder)
    (rs : List ReaderType) (hinit : w.get b.readersRef = []) :
    (addReaders w b rs).1.get b.readersRef = rs ∧
    ScannerConfig.configReaders
        (BarcodeScannerBuilder.build (addReaders w b rs).1
          (addReaders w b rs).2).1
        (BarcodeScannerBuilder.build (addReaders w b rs).1
          (addReaders w b rs).2).2 =
      (if rs = [] then [ReaderType.code128] else rs) ∧
    ScannerConfig.configReaders
        (BarcodeScannerBuilder.build (addReaders w b rs).1
          (addReaders w b rs).2).1
        (BarcodeScannerBuilder.build (addReaders w b rs).1
          (addReaders w b rs).2).2 ≠ [] := by
  obtain ⟨hb, hg⟩ := addReaders_spec rs w b
  rw [hinit] at hg
  simp only [List.nil_append] at hg
  have hcfg : ScannerConfig.configReaders
      (BarcodeScannerBuilder.build (addReaders w b rs).1
        (addReaders w b rs).2).1
      (BarcodeScannerBuilder.build (addReaders w b rs).1
        (addReaders w b rs).2).2 =
      (if rs = [] then [ReaderType.code128] else rs) := by
    rw [hb]
    by_cases hrs : rs = []
    · subst hrs
      simp [BarcodeScannerBuilder.build, ScannerConfig.configReaders, hg,
        World.get_push]
    · have hlen : (addReaders w b rs).1.get b.readersRef ≠ [] := by
        rw [hg]
        exact hrs
      simp only [BarcodeScannerBuilder.build, ScannerConfig.configReaders]
      rw [if_neg (by simpa [List.length_eq_zero] using hlen), if_neg hrs]
      exact hg
  refine ⟨hg, hcfg, ?_⟩
  rw [hcfg]
  by_cases hrs : rs = [] <;> simp [hrs]

/-- Witness for C7 with two duplicate `addReader` calls on a fresh
builder. -/
theorem addReader_order_default_witness :
    (addReaders (newBarcodeScannerBuilder World.empty "#t").1
        (newBarcodeScannerBuilder World.empty "#t").2
        [ReaderType.ean, ReaderType.ean]).1.get
      (newBarcodeScannerBuilder World.empty "#t").2.readersRef =
      [ReaderType.ean, ReaderType.ean] ∧
    ScannerConfig.configReaders
        (BarcodeScannerBuilder.build
          (addReaders (newBarcodeScannerBuilder World.empty "#t").1
            (newBarcodeScannerBuilder World.empty "#t").2
            [ReaderType.ean, ReaderType.ean]).1
          (addReaders (newBarcodeScannerBuilder World.empty "#t").1
            (newBarcodeScannerBuilder World.empty "#t").2
            [ReaderType.ean, ReaderType.ean]).2).1
        (BarcodeScannerBuilder.build
          (addReaders (newBarcodeScannerBuilder World.empty "#t").1
            (newBarcodeScannerBuilder World.empty "#t").2
            [ReaderType.ean, ReaderType.ean]).1
          (addReaders (newBarcodeScannerBuilder World.empty "#t").1
            (newBarcodeScannerBuilder World.empty "#t").2
            [ReaderType.ean, ReaderType.ean]).2).2 =
      (if [ReaderType.ean, ReaderType.ean] = ([] : List ReaderType)
        then [ReaderType.code128] else [ReaderType.ean, ReaderType.ean]) ∧
    ScannerConfig.configReaders
        (BarcodeScannerBuilder.build
          (addReaders (newBarcodeScannerBuilder World.empty "#t").1
            (newBarcodeScannerBuilder World.empty "#t").2
            [ReaderType.ean, ReaderType.ean]).1
          (addReaders (newBarcodeScannerBuilder World.empty "#t").1
            (newBarcodeScannerBuilder World.empty "#t").2
            [ReaderType.ean, ReaderType.ean]).2).1
        (BarcodeScannerBuilder.build
          (addReaders (newBarcodeScannerBuilder World.empty "#t").1
            (newBarcodeScannerBuilder World.empty "#t").2
            [ReaderType.ean, ReaderType.ean]).1
          (addReaders (newBarcodeScannerBuilder World.empty "#t").1
            (newBarcodeScannerBuilder World.empty "#t").2
            [ReaderType.ean, ReaderType.ean]).2).2 ≠ [] :=
  addReader_order_default (newBarcodeScannerBuilder World.empty "#t").1
    (newBarcodeScannerBuilder World.empty "#t").2
    [ReaderType.ean, ReaderType.ean] rfl

/-- Counterexample to claim C8 as stated: a `withDrawLocated` call with
enabled set to false does not overwrite the style set by an earlier enabled
call; the earlier style survives. -/
theorem withDraw_disable_keeps_style :
    (BarcodeScannerBuilder.withDrawLocated
        (BarcodeScannerBuilder.withDrawLocated
          (newBarcodeScannerBuilder World.empty "#t").2 true "green" 2)
        false "red" 1).drawLocatedStyle = some ⟨"green", 2⟩ ∧
    (BarcodeScannerBuilder.withDrawLocated
        (BarcodeScannerBuilder.withDrawLocated
          (newBarcodeScannerBuilder World.empty "#t").2 true "green" 2)
        false "red" 1).drawLocatedStyle ≠ none :=
  ⟨rfl, Option.some_ne_none _⟩

/-- Claim C8 amended: for the auto-CSS flag, the result-image options and
the validator the last call wins, including a disabling call; for each draw
style a later enabled call overwrites the style, while a disabled call is
the identity on the builder and hence leaves any earlier style in place. -/
theorem builder_last_call_wins (b : BarcodeScannerBuilder) (e1 e2 : Bool)
    (t1 t2 : Option String) (q1 q2 : Option ℚ) (f g : String → Bool)
    (c1 c2 : String) (lw1 lw2 : Int) :
    ((b.withAutoCss e1).withAutoCss e2).autoCss = e2 ∧
    ((b.withResultImages e1 t1 q1).withResultImages e2 t2 q2).resultImages =
      e2 ∧
    ((b.withResultImages e1 t1 q1).withResultImages e2 t2
        q2).resultImagesType = t2 ∧
    ((b.withResultImages e1 t1 q1).withResultImages e2 t2
        q2).resultImagesQuality = q2 ∧
    ((b.withCodeValidator f).withCodeValidator g).codeValidator = some g ∧
    ((b.withDrawLocated true c1 lw1).withDrawLocated true c2
        lw2).drawLocatedStyle = some ⟨c2, lw2⟩ ∧
    ((b.withDrawDetected true c1 lw1).withDrawDetected true c2
        lw2).drawDetectedStyle = some ⟨c2, lw2⟩ ∧
    ((b.withDrawScanline true c1 lw1).withDrawScanline true c2
        lw2).drawScanlineStyle = some ⟨c2, lw2⟩ ∧
    b.withDrawLocated false c1 lw1 = b ∧
    b.withDrawDetected false c1 lw1 = b ∧
    b.withDrawScanline false c1 lw1 = b :=
  ⟨rfl, rfl, rfl, rfl, rfl, rfl, rfl, rfl, rfl, rfl, rfl⟩

/-- Counterexample to claim C9 as stated: after `build` returns, a further
`addReader` call on the builder changes the symbology list of the
configuration the scanner was constructed with, because the array object is
shared by reference. -/
theorem built_config_mutated_by_addReader :
    ScannerConfig.configReaders
        (BarcodeScannerBuilder.build
          (newBarcodeScannerBuilder World.empty "#v").1
          (newBarcodeScannerBuilder World.empty "#v").2).1
        (BarcodeScannerBuilder.build
          (newBarcodeScannerBuilder World.empty "#v").1
          (newBarcodeScannerBuilder World.empty "#v").2).2 =
      [ReaderType.code128] ∧
    ScannerConfig.configReaders
        (BarcodeScannerBuilder.addReader
          (BarcodeScannerBuilder.build
            (newBarcodeScannerBuilder World.empty "#v").1
            (newBarcodeScannerBuilder World.empty "#v").2).1
          (newBarcodeScannerBuilder World.empty "#v").2 ReaderType.ean).1
        (BarcodeScannerBuilder.build
          (newBarcodeScannerBuilder World.empty "#v").1
          (newBarcodeScannerBuilder World.empty "#v").2).2 =
      [ReaderType.code128, ReaderType.ean] ∧
    ScannerConfig.configReaders
        (BarcodeScannerBuilder.addReader
          (BarcodeScannerBuilder.build
            (newBarcodeScannerBuilder World.empty "#v").1
            (newBarcodeScannerBuilder World.empty "#v").2).1
          (newBarcodeScannerBuilder World.empty "#v").2 ReaderType.ean).1
        (BarcodeScannerBuilder.build
          (newBarcodeScannerBuilder World.empty "#v").1
          (newBarcodeScannerBuilder World.empty "#v").2).2 ≠
      ScannerConfig.configReaders
        (BarcodeScannerBuilder.build
          (newBarcodeScannerBuilder World.empty "#v").1
          (newBarcodeScannerBuilder World.empty "#v").2).1
        (BarcodeScannerBuilder.build
          (newBarcodeScannerBuilder World.empty "#v").1
          (newBarcodeScannerBuilder World.empty "#v").2).2 := by
  refine ⟨rfl, rfl, ?_⟩
  decide

/-- Claim C9 amended: the configuration copies scalar options at build
time, but the symbology array is shared with the builder by reference, so
an `addReader` call after `build` appends to the configured symbology list
of the already-built scanner. -/
theorem config_shared_readers (w : World) (b : BarcodeScannerBuilder)
    (r : ReaderType) :
    ScannerConfig.configReaders
        (BarcodeScannerBuilder.addReader (BarcodeScannerBuilder.build w b).1
          b r).1
        (BarcodeScannerBuilder.build w b).2 =
      ScannerConfig.configReaders (BarcodeScannerBuilder.build w b).1
        (BarcodeScannerBuilder.build w b).2 ++ [r] ∧
    (BarcodeScannerBuilder.build w b).2.autoCss = b.autoCss ∧
    (BarcodeScannerBuilder.build w b).2.codeValidator = b.codeValidator ∧
    (BarcodeScannerBuilder.build w b).2.drawLocatedStyle =
      b.drawLocatedStyle := by
  refine ⟨?_, rfl, rfl, rfl⟩
  simp [ScannerConfig.configReaders, BarcodeScannerBuilder.addReader,
    BarcodeScannerBuilder.build, World.get_push]
